import Mathlib

/-!
Verification of the StreamlitAI repository: a shallow embedding of the
remote-inference request handler in src/imggen.py and of the desktop
generator in src/IMAGE_GENERATOR.py, together with theorems settling the
testable properties stated in the specification.

The network is modelled as a function from the issued HTTP request to an
outcome: a response, a timeout exception, or a connection-error exception.
Side effects are made explicit: displayed messages are collected in a list,
and the list of POST requests actually issued is returned alongside the
result, so that claims about "no network call is made" and "exactly one
POST per invocation" are expressible.
-/

namespace StreamlitAI

/-- String helper: does `pat ++ rest = hay` for some `rest`?  Compares the
leading characters of `hay` with `pat`. -/
def startsWithChars : List Char → List Char → Bool
  | [], _ => true
  | _ :: _, [] => false
  | a :: as, b :: bs => a == b && startsWithChars as bs

/-- Substring test on character lists: does `pat` occur contiguously in the
haystack?  Models the Python `in` operator on strings. -/
def hasSubChars (pat : List Char) : List Char → Bool
  | [] => pat.isEmpty
  | c :: rest => startsWithChars pat (c :: rest) || hasSubChars pat rest

/-- `strIn pat s` models Python `pat in s` (contiguous substring test). -/
def strIn (pat s : String) : Bool :=
  hasSubChars pat.toList s.toList

/-- Lower-case every character of a string. -/
def lowerStr (s : String) : String :=
  String.mk (s.toList.map Char.toLower)

/-- Drop leading whitespace characters from a character list. -/
def dropLeadingWS : List Char → List Char
  | [] => []
  | c :: r => if c.isWhitespace then dropLeadingWS r else c :: r

/-- Models Python `s.strip()`: remove leading and trailing whitespace. -/
def pyStrip (s : String) : String :=
  String.mk (((dropLeadingWS s.toList).reverse |> dropLeadingWS).reverse)

/-- Models Python `s[:n]`: the first `n` characters of a string. -/
def strTake (s : String) (n : Nat) : String :=
  String.mk (s.toList.take n)

/-- Models `response.headers.get(key, dflt)` of the requests library, whose
header dictionary is case-insensitive on keys. -/
def headersGet (hs : List (String × String)) (key dflt : String) : String :=
  match hs.find? (fun p => lowerStr p.1 == lowerStr key) with
  | some p => p.2
  | none => dflt

/-- The `parameters` object of the JSON payload built in src/imggen.py
(lines 133-137).  The guidance scale is a slider value in half-unit steps,
modelled as an exact rational. -/
structure Parameters where
  negative_prompt : String
  num_inference_steps : Nat
  guidance_scale : ℚ
deriving DecidableEq

/-- The JSON body of the generation request (src/imggen.py lines 131-138). -/
structure Payload where
  inputs : String
  parameters : Parameters
deriving DecidableEq

/-- An outbound HTTP POST as issued by `requests.post` at src/imggen.py
line 30: target URL, the Authorization header value, JSON body, timeout. -/
structure HttpRequest where
  url : String
  authorization : String
  body : Payload
  timeout : Nat
deriving DecidableEq

/-- An HTTP response as consumed by `query`: status code, headers,
raw body bytes (`response.content`) and body text (`response.text`). -/
structure HttpResponse where
  status_code : Nat
  headers : List (String × String)
  content : List Nat
  text : String
deriving DecidableEq

/-- Outcome of the network call: a response, or one of the two exception
types caught at src/imggen.py lines 55-60. -/
inductive NetResult where
  | ok : HttpResponse → NetResult
  | timeout : NetResult
  | connectionError : NetResult
deriving DecidableEq

/-- Kind of a displayed message (`st.error`, `st.warning`, ...). -/
inductive MsgKind where
  | error
  | warning
  | success
  | info
deriving DecidableEq

/-- One user-visible message displayed by the app. -/
structure Disp where
  kind : MsgKind
  text : String
deriving DecidableEq

/-- `BASE_URL` of src/imggen.py line 21. -/
def BASE_URL : String := "https://router.huggingface.co/hf-inference/models"

/-- The request built at src/imggen.py lines 26-30: `api_url` is
`BASE_URL/model_id`, the Authorization header is `Bearer token`, and the
timeout is fixed at 120 seconds. -/
def mkRequest (hf_token model_id : String) (payload : Payload) : HttpRequest :=
  { url := BASE_URL ++ "/" ++ model_id
  , authorization := "Bearer " ++ hf_token
  , body := payload
  , timeout := 120 }

/-- The `query` function of src/imggen.py (lines 25-60).  Returns the result
(`response.content` bytes or `None`), the displayed messages, and the list
of POST requests issued (always exactly the one built request: the source
contains a single `requests.post` call and no retry loop).  The two
`except` clauses are the `timeout` and `connectionError` branches. -/
def query (hf_token model_id : String) (payload : Payload)
    (net : HttpRequest → NetResult) :
    Option (List Nat) × List Disp × List HttpRequest :=
  let req := mkRequest hf_token model_id payload
  match net req with
  | NetResult.timeout =>
      (none, [⟨MsgKind.error,
        "❌ Request timed out — model may be busy. Please try again."⟩], [req])
  | NetResult.connectionError =>
      (none, [⟨MsgKind.error,
        "❌ Connection error. Please check your internet."⟩], [req])
  | NetResult.ok response =>
      if response.status_code = 401 then
        (none, [⟨MsgKind.error,
          "❌ Invalid token — please double-check your Hugging Face API token."⟩], [req])
      else if response.status_code = 403 then
        (none, [⟨MsgKind.error,
          "❌ Access denied for this model. Try a different model from the dropdown, or accept the license at huggingface.co/models"⟩], [req])
      else if response.status_code = 503 then
        (none, [⟨MsgKind.warning,
          "⏳ Model is loading on HF servers. Wait 20–30 sec and try again."⟩], [req])
      else if response.status_code ≠ 200 then
        (none, [⟨MsgKind.error,
          "❌ API Error " ++ toString response.status_code ++ ": " ++ strTake response.text 300⟩], [req])
      else
        let content_type := headersGet response.headers "Content-Type" ""
        if ¬ strIn "image" content_type then
          (none, [⟨MsgKind.error,
            "❌ Unexpected response (not an image): " ++ strTake response.text 300⟩], [req])
        else
          (some response.content, [], [req])

/-- The generate-button handler of src/imggen.py (lines 120-139): validates
that the stripped token and stripped prompt are non-empty (`st.stop()`
halts before any network call otherwise), builds the payload from the
stripped inputs and the slider values, and calls `query`. -/
def onGenerateClick (hf_token prompt negative_prompt : String)
    (steps : Nat) (guidance : ℚ) (selected_model : String)
    (net : HttpRequest → NetResult) :
    Option (List Nat) × List Disp × List HttpRequest :=
  if pyStrip hf_token = "" then
    (none, [⟨MsgKind.warning,
      "⚠️ Please enter your Hugging Face API token in the sidebar."⟩], [])
  else if pyStrip prompt = "" then
    (none, [⟨MsgKind.warning, "⚠️ Please enter a prompt."⟩], [])
  else
    query (pyStrip hf_token) selected_model
      ⟨pyStrip prompt, ⟨pyStrip negative_prompt, steps, guidance⟩⟩ net

/-- C1: for a 200 response whose Content-Type header contains "image", the
handler returns exactly the raw response body bytes, unmodified
(src/imggen.py lines 48-53). -/
theorem query_200_image_returns_raw_bytes
    (t m : String) (p : Payload) (net : HttpRequest → NetResult)
    (resp : HttpResponse)
    (hnet : net (mkRequest t m p) = NetResult.ok resp)
    (h200 : resp.status_code = 200)
    (himg : strIn "image" (headersGet resp.headers "Content-Type" "") = true) :
    (query t m p net).1 = some resp.content := by
  simp [query, hnet, h200, himg]

/-- Witness for C1 at a concrete 200 image/png response. -/
theorem query_200_image_returns_raw_bytes_witness :
    (query "hf_tok" "dreamlike-art/dreamlike-photoreal-2.0"
      ⟨"a cat", ⟨"blurry", 30, (15 : ℚ) / 2⟩⟩
      (fun _ => NetResult.ok ⟨200, [("Content-Type", "image/png")], [137, 80, 78, 71], ""⟩)).1
    = some [137, 80, 78, 71] :=
  query_200_image_returns_raw_bytes _ _ _ _
    ⟨200, [("Content-Type", "image/png")], [137, 80, 78, 71], ""⟩
    rfl rfl (by decide)

/-- A pattern that matches a prefix of a list still matches after the list
is extended on the right. -/
theorem startsWithChars_append (pat l1 l2 : List Char)
    (h : startsWithChars pat l1 = true) :
    startsWithChars pat (l1 ++ l2) = true := by
  induction pat generalizing l1 with
  | nil => rfl
  | cons a as ih =>
    cases l1 with
    | nil => simp [startsWithChars] at h
    | cons b bs =>
      simp [startsWithChars] at h ⊢
      exact ⟨h.1, ih bs h.2⟩

/-- The empty pattern occurs in every list. -/
theorem hasSubChars_nil_any (l : List Char) : hasSubChars [] l = true := by
  cases l with
  | nil => rfl
  | cons c r => simp [hasSubChars, startsWithChars]

/-- A substring occurrence survives appending on the right. -/
theorem hasSubChars_append_left (pat l1 l2 : List Char)
    (h : hasSubChars pat l1 = true) : hasSubChars pat (l1 ++ l2) = true := by
  induction l1 with
  | nil =>
    have hp : pat = [] := by
      simpa [hasSubChars] using h
    subst hp
    exact hasSubChars_nil_any l2
  | cons c r ih =>
    simp [hasSubChars] at h ⊢
    rcases h with h | h
    · exact Or.inl (startsWithChars_append _ _ _ h)
    · exact Or.inr (ih h)

/-- Python substring containment survives appending on the right. -/
theorem strIn_append_left (pat s t : String) (h : strIn pat s = true) :
    strIn pat (s ++ t) = true := by
  cases s with
  | mk a =>
    cases t with
    | mk b =>
      exact hasSubChars_append_left pat.toList a b h

/-- Every branch of `query` issues exactly the one built POST request:
there is a single `requests.post` call and no retry loop in the source. -/
theorem query_requests_eq (t m : String) (p : Payload)
    (net : HttpRequest → NetResult) :
    (query t m p net).2.2 = [mkRequest t m p] := by
  cases h : net (mkRequest t m p) with
  | timeout => simp [query, h]
  | connectionError => simp [query, h]
  | ok resp =>
    simp only [query, h]
    repeat' split
    all_goals rfl

/-- A concrete payload used by the witness theorems. -/
def payloadW : Payload := ⟨"a cat", ⟨"blurry", 30, (15 : ℚ) / 2⟩⟩

/-- C2: for a 401 response, `query` returns `None` and displays an error
message containing "Invalid token" (src/imggen.py lines 32-34). -/
theorem query_401_invalid_token
    (t m : String) (p : Payload) (net : HttpRequest → NetResult)
    (resp : HttpResponse)
    (hnet : net (mkRequest t m p) = NetResult.ok resp)
    (h401 : resp.status_code = 401) :
    (query t m p net).1 = none ∧
    ∃ d ∈ (query t m p net).2.1,
      d.kind = MsgKind.error ∧ strIn "Invalid token" d.text = true := by
  have hq : query t m p net =
      (none, [⟨MsgKind.error,
        "❌ Invalid token — please double-check your Hugging Face API token."⟩],
       [mkRequest t m p]) := by
    simp [query, hnet, h401]
  rw [hq]
  exact ⟨rfl,
    ⟨⟨MsgKind.error,
      "❌ Invalid token — please double-check your Hugging Face API token."⟩,
     by simp, rfl, by decide⟩⟩

/-- Witness for C2 at a concrete 401 response. -/
theorem query_401_invalid_token_witness :
    (query "hf_tok" "stabilityai/stable-diffusion-2-1" payloadW
      (fun _ => NetResult.ok ⟨401, [], [], "unauthorized"⟩)).1 = none ∧
    ∃ d ∈ (query "hf_tok" "stabilityai/stable-diffusion-2-1" payloadW
      (fun _ => NetResult.ok ⟨401, [], [], "unauthorized"⟩)).2.1,
      d.kind = MsgKind.error ∧ strIn "Invalid token" d.text = true :=
  query_401_invalid_token _ _ _ _ ⟨401, [], [], "unauthorized"⟩ rfl rfl

/-- C3: for a 200 response whose Content-Type does not contain "image",
`query` returns `None` and displays an unexpected-response error even
though the status was success (src/imggen.py lines 48-51). -/
theorem query_200_not_image_rejected
    (t m : String) (p : Payload) (net : HttpRequest → NetResult)
    (resp : HttpResponse)
    (hnet : net (mkRequest t m p) = NetResult.ok resp)
    (h200 : resp.status_code = 200)
    (hct : strIn "image" (headersGet resp.headers "Content-Type" "") = false) :
    (query t m p net).1 = none ∧
    ∃ d ∈ (query t m p net).2.1,
      d.kind = MsgKind.error ∧ strIn "Unexpected response" d.text = true := by
  have hq : query t m p net =
      (none, [⟨MsgKind.error,
        "❌ Unexpected response (not an image): " ++ strTake resp.text 300⟩],
       [mkRequest t m p]) := by
    simp [query, hnet, h200, hct]
  rw [hq]
  refine ⟨rfl,
    ⟨⟨MsgKind.error,
      "❌ Unexpected response (not an image): " ++ strTake resp.text 300⟩,
     by simp, rfl, ?_⟩⟩
  exact strIn_append_left _ _ _ (by decide)

/-- Witness for C3 at a concrete 200 text/plain response. -/
theorem query_200_not_image_rejected_witness :
    (query "hf_tok" "prompthero/openjourney-v4" payloadW
      (fun _ => NetResult.ok
        ⟨200, [("Content-Type", "text/plain")], [123], "not an image body"⟩)).1 = none ∧
    ∃ d ∈ (query "hf_tok" "prompthero/openjourney-v4" payloadW
      (fun _ => NetResult.ok
        ⟨200, [("Content-Type", "text/plain")], [123], "not an image body"⟩)).2.1,
      d.kind = MsgKind.error ∧ strIn "Unexpected response" d.text = true :=
  query_200_not_image_rejected _ _ _ _
    ⟨200, [("Content-Type", "text/plain")], [123], "not an image body"⟩
    rfl rfl (by decide)

/-- C4: for a 503 response, `query` returns `None`, displays a message
containing "loading", and issues exactly one POST request — there is no
automatic retry (src/imggen.py lines 29-43). -/
theorem query_503_loading_single_request
    (t m : String) (p : Payload) (net : HttpRequest → NetResult)
    (resp : HttpResponse)
    (hnet : net (mkRequest t m p) = NetResult.ok resp)
    (h503 : resp.status_code = 503) :
    (query t m p net).1 = none ∧
    (∃ d ∈ (query t m p net).2.1, strIn "loading" d.text = true) ∧
    (query t m p net).2.2 = [mkRequest t m p] := by
  have hq : query t m p net =
      (none, [⟨MsgKind.warning,
        "⏳ Model is loading on HF servers. Wait 20–30 sec and try again."⟩],
       [mkRequest t m p]) := by
    simp [query, hnet, h503]
  rw [hq]
  exact ⟨rfl,
    ⟨⟨MsgKind.warning,
      "⏳ Model is loading on HF servers. Wait 20–30 sec and try again."⟩,
     by simp, by decide⟩, rfl⟩

/-- Witness for C4 at a concrete 503 response. -/
theorem query_503_loading_single_request_witness :
    (query "hf_tok" "SG161222/Realistic_Vision_V3.0_VAE" payloadW
      (fun _ => NetResult.ok ⟨503, [], [], "loading"⟩)).1 = none ∧
    (∃ d ∈ (query "hf_tok" "SG161222/Realistic_Vision_V3.0_VAE" payloadW
      (fun _ => NetResult.ok ⟨503, [], [], "loading"⟩)).2.1,
      strIn "loading" d.text = true) ∧
    (query "hf_tok" "SG161222/Realistic_Vision_V3.0_VAE" payloadW
      (fun _ => NetResult.ok ⟨503, [], [], "loading"⟩)).2.2 =
      [mkRequest "hf_tok" "SG161222/Realistic_Vision_V3.0_VAE" payloadW] :=
  query_503_loading_single_request _ _ _ _ ⟨503, [], [], "loading"⟩ rfl rfl

/-- C5: when the stripped token or the stripped prompt is empty, the
button handler halts before any network activity: no POST request is
issued and no result bytes are produced (src/imggen.py lines 120-139). -/
theorem empty_inputs_halt_before_network
    (tok prompt neg : String) (steps : Nat) (g : ℚ) (model : String)
    (net : HttpRequest → NetResult)
    (h : pyStrip tok = "" ∨ pyStrip prompt = "") :
    (onGenerateClick tok prompt neg steps g model net).2.2 = [] ∧
    (onGenerateClick tok prompt neg steps g model net).1 = none := by
  rcases h with h | h
  · simp [onGenerateClick, h]
  · by_cases htok : pyStrip tok = ""
    · simp [onGenerateClick, htok]
    · simp [onGenerateClick, htok, h]

/-- Witness for C5: whitespace-only token with a non-empty prompt. -/
theorem empty_inputs_halt_before_network_witness :
    pyStrip "   " = "" ∧
    (onGenerateClick "   " "a cat" "blurry" 30 ((15 : ℚ) / 2)
      "dreamlike-art/dreamlike-photoreal-2.0" (fun _ => NetResult.timeout)).2.2 = [] ∧
    (onGenerateClick "   " "a cat" "blurry" 30 ((15 : ℚ) / 2)
      "dreamlike-art/dreamlike-photoreal-2.0" (fun _ => NetResult.timeout)).1 = none :=
  ⟨by decide,
   empty_inputs_halt_before_network "   " "a cat" "blurry" 30 ((15 : ℚ) / 2)
     "dreamlike-art/dreamlike-photoreal-2.0" (fun _ => NetResult.timeout)
     (Or.inl (by decide))⟩

/-- C6: every modelled failure of the inference call — either caught
exception or any non-success response — is converted at the single call
site into a user-visible message with a `None` result; on the one success
path the raw response bytes are returned.  `query` is a total function:
no failure escapes to a caller (src/imggen.py lines 29-60). -/
theorem query_failures_all_handled
    (t m : String) (p : Payload) (net : HttpRequest → NetResult) :
    (∃ resp, net (mkRequest t m p) = NetResult.ok resp ∧
      (query t m p net).1 = some resp.content) ∨
    ((query t m p net).1 = none ∧ (query t m p net).2.1 ≠ []) := by
  cases h : net (mkRequest t m p) with
  | timeout => exact Or.inr (by simp [query, h])
  | connectionError => exact Or.inr (by simp [query, h])
  | ok resp =>
    by_cases h1 : resp.status_code = 401
    · exact Or.inr (by simp [query, h, h1])
    · by_cases h2 : resp.status_code = 403
      · exact Or.inr (by simp [query, h, h1, h2])
      · by_cases h3 : resp.status_code = 503
        · exact Or.inr (by simp [query, h, h1, h2, h3])
        · by_cases h4 : resp.status_code = 200
          · by_cases h5 : strIn "image"
                (headersGet resp.headers "Content-Type" "") = true
            · exact Or.inl ⟨resp, rfl, by simp [query, h, h1, h2, h3, h4, h5]⟩
            · exact Or.inr (by simp [query, h, h1, h2, h3, h4, h5])
          · exact Or.inr (by simp [query, h, h1, h2, h3, h4])

/-- C7: a timeout exception yields `None` with an error message containing
"timed out"; a connection-error exception yields `None` with an error
message containing "Connection error" (src/imggen.py lines 55-60). -/
theorem query_timeout_and_connection_error
    (t m : String) (p : Payload) (net : HttpRequest → NetResult) :
    (net (mkRequest t m p) = NetResult.timeout →
      (query t m p net).1 = none ∧
      ∃ d ∈ (query t m p net).2.1,
        d.kind = MsgKind.error ∧ strIn "timed out" d.text = true) ∧
    (net (mkRequest t m p) = NetResult.connectionError →
      (query t m p net).1 = none ∧
      ∃ d ∈ (query t m p net).2.1,
        d.kind = MsgKind.error ∧ strIn "Connection error" d.text = true) := by
  constructor
  · intro h
    have hq : query t m p net =
        (none, [⟨MsgKind.error,
          "❌ Request timed out — model may be busy. Please try again."⟩],
         [mkRequest t m p]) := by
      simp [query, h]
    rw [hq]
    exact ⟨rfl,
      ⟨⟨MsgKind.error,
        "❌ Request timed out — model may be busy. Please try again."⟩,
       by simp, rfl, by decide⟩⟩
  · intro h
    have hq : query t m p net =
        (none, [⟨MsgKind.error,
          "❌ Connection error. Please check your internet."⟩],
         [mkRequest t m p]) := by
      simp [query, h]
    rw [hq]
    exact ⟨rfl,
      ⟨⟨MsgKind.error, "❌ Connection error. Please check your internet."⟩,
       by simp, rfl, by decide⟩⟩

/-- Witness for C7, exercising both the timeout and the connection-error
branch at concrete inputs. -/
theorem query_timeout_and_connection_error_witness :
    ((query "hf_tok" "m" payloadW (fun _ => NetResult.timeout)).1 = none ∧
      ∃ d ∈ (query "hf_tok" "m" payloadW (fun _ => NetResult.timeout)).2.1,
        d.kind = MsgKind.error ∧ strIn "timed out" d.text = true) ∧
    ((query "hf_tok" "m" payloadW (fun _ => NetResult.connectionError)).1 = none ∧
      ∃ d ∈ (query "hf_tok" "m" payloadW (fun _ => NetResult.connectionError)).2.1,
        d.kind = MsgKind.error ∧ strIn "Connection error" d.text = true) :=
  ⟨(query_timeout_and_connection_error "hf_tok" "m" payloadW
      (fun _ => NetResult.timeout)).1 rfl,
   (query_timeout_and_connection_error "hf_tok" "m" payloadW
      (fun _ => NetResult.connectionError)).2 rfl⟩

/-- C8: when validation passes, the invocation issues exactly one POST
request: its URL is the base endpoint plus the model id, its Authorization
header is "Bearer" plus the stripped token, its JSON body carries the
stripped prompt with negative prompt, step count and guidance scale, and
its timeout is fixed at 120 seconds (src/imggen.py lines 25-30, 131-139). -/
theorem onGenerateClick_single_post_shape
    (tok prompt neg : String) (steps : Nat) (g : ℚ) (model : String)
    (net : HttpRequest → NetResult)
    (htok : ¬ pyStrip tok = "") (hprompt : ¬ pyStrip prompt = "") :
    (onGenerateClick tok prompt neg steps g model net).2.2 =
      [{ url := BASE_URL ++ "/" ++ model
       , authorization := "Bearer " ++ pyStrip tok
       , body := ⟨pyStrip prompt, ⟨pyStrip neg, steps, g⟩⟩
       , timeout := 120 }] := by
  have h : (onGenerateClick tok prompt neg steps g model net).2.2 =
      (query (pyStrip tok) model
        ⟨pyStrip prompt, ⟨pyStrip neg, steps, g⟩⟩ net).2.2 := by
    simp [onGenerateClick, htok, hprompt]
  rw [h, query_requests_eq]
  rfl

/-- Witness for C8 at concrete inputs with surrounding whitespace. -/
theorem onGenerateClick_single_post_shape_witness :
    (onGenerateClick " hf_abc " " a cat " "blurry" 30 ((15 : ℚ) / 2)
      "stabilityai/stable-diffusion-2-1" (fun _ => NetResult.timeout)).2.2 =
      [{ url := BASE_URL ++ "/" ++ "stabilityai/stable-diffusion-2-1"
       , authorization := "Bearer " ++ "hf_abc"
       , body := ⟨"a cat", ⟨"blurry", 30, (15 : ℚ) / 2⟩⟩
       , timeout := 120 }] := by
  have h := onGenerateClick_single_post_shape " hf_abc " " a cat " "blurry" 30
    ((15 : ℚ) / 2) "stabilityai/stable-diffusion-2-1"
    (fun _ => NetResult.timeout) (by decide) (by decide)
  rw [h]
  rfl

/-- An image produced by the local diffusion pipeline of
src/IMAGE_GENERATOR.py, kept abstract as its raw data. -/
structure GenImage where
  pixel_data : List Nat
deriving DecidableEq

/-- The UI state of the desktop app `SamImageGenerator`
(src/IMAGE_GENERATOR.py): generate-button state and label, status label
text and colour, the displayed image, and the files written so far. -/
structure DesktopState where
  gen_button_state : String
  gen_button_text : String
  status_text : String
  status_color : String
  image_display : Option GenImage
  saved_files : List (String × GenImage)
deriving DecidableEq

/-- Outcome of the try-block body of `generate_image`: either the pipeline
call (and the subsequent save and display conversion) completes with an
image, or some step raises an exception carrying a message. -/
inductive PipeOutcome where
  | ok : GenImage → PipeOutcome
  | exc : String → PipeOutcome
deriving DecidableEq

/-- `start_generation` of src/IMAGE_GENERATOR.py (lines 61-72): with an
empty prompt it only sets a red status; otherwise it disables the button,
relabels it "Generating...", sets the status, and spawns the worker thread
(the returned Bool records whether a thread was started). -/
def start_generation (prompt : String) (s : DesktopState) :
    DesktopState × Bool :=
  if prompt = "" then
    ({ s with status_text := "Please enter a prompt first!"
            , status_color := "red" }, false)
  else
    ({ s with gen_button_state := "disabled"
            , gen_button_text := "Generating..."
            , status_text := "Processing AI model..."
            , status_color := "yellow" }, true)

/-- `generate_image` of src/IMAGE_GENERATOR.py (lines 74-91): on success
the image is saved to "generated.png", displayed, and a green status set;
on any exception a red error status is set; the `finally` clause then
unconditionally restores the button to state "normal" with its original
label. -/
def generate_image (outcome : PipeOutcome) (s : DesktopState) : DesktopState :=
  let s1 :=
    match outcome with
    | PipeOutcome.ok image =>
        { s with saved_files := s.saved_files ++ [("generated.png", image)]
               , image_display := some image
               , status_text := "Generation Complete!"
               , status_color := "green" }
    | PipeOutcome.exc e =>
        { s with status_text := "Error: " ++ e
               , status_color := "red" }
  { s1 with gen_button_state := "normal", gen_button_text := "Generate Image" }

/-- C10: after every run of `generate_image` — success or any raised
exception — the generate button ends enabled ("normal") with its original
label "Generate Image"; the UI never remains stuck in the disabled
"Generating..." state (src/IMAGE_GENERATOR.py lines 74-91). -/
theorem generate_image_restores_button
    (outcome : PipeOutcome) (s : DesktopState) :
    (generate_image outcome s).gen_button_state = "normal" ∧
    (generate_image outcome s).gen_button_text = "Generate Image" := by
  cases outcome <;> simp [generate_image]

end StreamlitAI
